import Mathlib

/-!
Shallow embedding of the vadiy repository's tiered usage-control pipeline,
data-access wrappers and security helpers, together with proofs of the
spec's claims about them.

Sources embedded here:
* `src/src/lib/airtable.ts` — `SubscriptionService.determineUserTier`,
  `AirtableService.getConversation`, `AirtableService.searchOpportunities`,
  `AirtableService.cleanupOldData`, `safeTableOperation`.
* `src/unnamed/part_004` — the `POST /api/chat/send-message` and
  `GET /api/user/tier` route handlers and `applyTierRestrictions`.
* `src/unnamed/part_005` — `RateLimiter.checkRateLimit` and
  `PIIProtector.maskPII` (six fixed regular expressions).
* `src/src/app/page.tsx` — `UsageTrackingService.checkDailyMessageLimit`.

External services (Airtable, Redis, OpenAI, JWT verification) are modelled
as explicit state or environment parameters; JavaScript `Date` values are
modelled as a day index plus milliseconds within the day.
-/

namespace Vadiy

/-! ## Subscription tiers (`src/src/lib/airtable.ts`, `SubscriptionService`) -/

/-- The `SubscriptionTier` string enum (`FREE = 'Free'`, `PREMIUM = 'Premium'`,
`FOUNDER = 'Founder Club'`). -/
inductive SubscriptionTier where
  | free
  | premium
  | founder
  deriving DecidableEq, Repr

/-- The string value carried by each `SubscriptionTier` enum member. -/
def SubscriptionTier.str : SubscriptionTier → String
  | .free => "Free"
  | .premium => "Premium"
  | .founder => "Founder Club"

/-- The `modelToUse` field: `'gpt-4o-mini' | 'gpt-3.5-turbo'`. -/
inductive ModelName where
  | gpt4oMini
  | gpt35Turbo
  deriving DecidableEq, Repr

/-- The seven feature flags of `UserServiceTier.features`. -/
structure TierFeatures where
  opportunities : Bool
  «matches» : Bool
  resources : Bool
  fullMemory : Bool
  personalizedGreeting : Bool
  webSearch : Bool
  smartRouting : Bool
  deriving DecidableEq, Repr

/-- The numeric limits of `UserServiceTier.limits`. -/
structure TierLimits where
  messagesPerDay : Nat
  conversationHistory : Nat
  maxTokens : Nat
  deriving DecidableEq, Repr

/-- The `UserServiceTier` interface. -/
structure UserServiceTier where
  tier : SubscriptionTier
  hasFullAccess : Bool
  modelToUse : ModelName
  features : TierFeatures
  limits : TierLimits
  deriving DecidableEq, Repr

/-- The configuration object returned by the `'Founder Club'` case of
`determineUserTier`. -/
def founderConfig : UserServiceTier :=
  { tier := .founder
    hasFullAccess := true
    modelToUse := .gpt4oMini
    features :=
      { opportunities := true, «matches» := true, resources := true
        fullMemory := true, personalizedGreeting := true, webSearch := true
        smartRouting := true }
    limits := { messagesPerDay := 1000, conversationHistory := 25, maxTokens := 2000 } }

/-- The configuration object returned by the `'Premium'` case of
`determineUserTier`. -/
def premiumConfig : UserServiceTier :=
  { tier := .premium
    hasFullAccess := true
    modelToUse := .gpt4oMini
    features :=
      { opportunities := true, «matches» := true, resources := true
        fullMemory := true, personalizedGreeting := true, webSearch := true
        smartRouting := true }
    limits := { messagesPerDay := 500, conversationHistory := 20, maxTokens := 1500 } }

/-- The configuration object returned by the `'Free'`/default case of
`determineUserTier`. -/
def freeConfig : UserServiceTier :=
  { tier := .free
    hasFullAccess := false
    modelToUse := .gpt35Turbo
    features :=
      { opportunities := false, «matches» := false, resources := true
        fullMemory := false, personalizedGreeting := false, webSearch := false
        smartRouting := false }
    limits := { messagesPerDay := 50, conversationHistory := 3, maxTokens := 500 } }

/-- JavaScript `String.prototype.trim`: drop leading and trailing whitespace.
Implemented structurally over the character list so that it evaluates inside
the kernel. -/
def jsTrim (s : String) : String :=
  ⟨((s.data.dropWhile Char.isWhitespace).reverse.dropWhile Char.isWhitespace).reverse⟩

/-- Status resolution `const status = subscriptionStatus?.trim() || 'Free'`: a
missing value or a string that trims to the empty string resolves to `'Free'`;
otherwise to the trimmed string. -/
def resolvedStatus (subscriptionStatus : Option String) : String :=
  match subscriptionStatus with
  | none => "Free"
  | some s => if jsTrim s = "" then "Free" else jsTrim s

/-- `SubscriptionService.determineUserTier`: a 3-case switch on the resolved
subscription-status string. -/
def determineUserTier (subscriptionStatus : Option String) : UserServiceTier :=
  let status := resolvedStatus subscriptionStatus
  if status = "Founder Club" then founderConfig
  else if status = "Premium" then premiumConfig
  else freeConfig

/-! ## Claim C1 -/

/-- C1: `SubscriptionService.determineUserTier` is a 3-case switch on the
trimmed subscription-status string: `'Founder Club'` yields the Founder
configuration (all seven feature flags true, `hasFullAccess` true, model
`gpt-4o-mini`, limits 1000 / 25 / 2000); `'Premium'` yields the Premium
configuration (all seven feature flags true, `hasFullAccess` true, model
`gpt-4o-mini`, limits 500 / 20 / 1500); every other input, including the empty
string and a missing value, yields the Free configuration (only `resources`
true, `hasFullAccess` false, model `gpt-3.5-turbo`, limits 50 / 3 / 500).
The returned objects are static: two calls whose status strings resolve to the
same case return equal results. -/
theorem determineUserTier_three_case_switch :
    (∀ s : Option String, resolvedStatus s = "Founder Club" →
      determineUserTier s = founderConfig) ∧
    (∀ s : Option String, resolvedStatus s = "Premium" →
      determineUserTier s = premiumConfig) ∧
    (∀ s : Option String, resolvedStatus s ≠ "Founder Club" →
      resolvedStatus s ≠ "Premium" → determineUserTier s = freeConfig) ∧
    determineUserTier none = freeConfig ∧
    determineUserTier (some "") = freeConfig ∧
    founderConfig =
      { tier := .founder, hasFullAccess := true, modelToUse := .gpt4oMini
        features := ⟨true, true, true, true, true, true, true⟩
        limits := ⟨1000, 25, 2000⟩ } ∧
    premiumConfig =
      { tier := .premium, hasFullAccess := true, modelToUse := .gpt4oMini
        features := ⟨true, true, true, true, true, true, true⟩
        limits := ⟨500, 20, 1500⟩ } ∧
    freeConfig =
      { tier := .free, hasFullAccess := false, modelToUse := .gpt35Turbo
        features := ⟨false, false, true, false, false, false, false⟩
        limits := ⟨50, 3, 500⟩ } ∧
    (∀ s₁ s₂ : Option String,
      (resolvedStatus s₁ = "Founder Club" ↔ resolvedStatus s₂ = "Founder Club") →
      (resolvedStatus s₁ = "Premium" ↔ resolvedStatus s₂ = "Premium") →
      determineUserTier s₁ = determineUserTier s₂) := by
  refine ⟨?_, ?_, ?_, rfl, by decide, rfl, rfl, rfl, ?_⟩
  · intro s h; simp [determineUserTier, h]
  · intro s h
    have hne : resolvedStatus s ≠ "Founder Club" := by
      rw [h]; decide
    simp [determineUserTier, hne, h]
  · intro s h₁ h₂; simp [determineUserTier, h₁, h₂]
  · intro s₁ s₂ hf hp
    unfold determineUserTier
    by_cases h₁ : resolvedStatus s₁ = "Founder Club"
    · simp [h₁, hf.mp h₁]
    · have h₂ : resolvedStatus s₂ ≠ "Founder Club" := fun h => h₁ (hf.mpr h)
      by_cases hq₁ : resolvedStatus s₁ = "Premium"
      · simp [h₁, h₂, hq₁, hp.mp hq₁]
      · have hq₂ : resolvedStatus s₂ ≠ "Premium" := fun h => hq₁ (hp.mpr h)
        simp [h₁, h₂, hq₁, hq₂]

/-- Witness for C1: the theorem applied at the concrete input
`some " Founder Club "`, whose trimmed status resolves to the Founder case. -/
theorem determineUserTier_three_case_switch_witness :
    determineUserTier (some " Founder Club ") = founderConfig :=
  determineUserTier_three_case_switch.1 (some " Founder Club ") (by decide)

/-! ## Search-intent tier restrictions (`src/unnamed/part_004`) -/

/-- Result shape of `detectAirtableSearchIntent`. -/
structure SearchIntent where
  searchRequired : Bool
  searchOpportunities : Bool
  searchResources : Bool
  getUserMatches : Bool
  getOpportunityDetails : Bool
  opportunityId : Option String
  keywords : List String
  deriving DecidableEq, Repr

/-- The `blockedFeatures` object built by `applyTierRestrictions`: a key is
present (set to `true`) only for a blocked feature. -/
structure BlockedFeatures where
  opportunities : Bool
  «matches» : Bool
  deriving DecidableEq, Repr

/-- Result shape of `applyTierRestrictions`: the intent fields plus the
optional `blockedFeatures` object (absent when nothing was blocked). -/
structure RestrictedIntent extends SearchIntent where
  blockedFeatures : Option BlockedFeatures
  deriving DecidableEq, Repr

/-- `applyTierRestrictions` from the send-message route: each search flag is
conjoined with the corresponding tier feature flag, and `blockedFeatures`
collects the opportunity/match features that were requested but are not
enabled for the tier. -/
def applyTierRestrictions (intent : SearchIntent) (serviceTier : UserServiceTier) :
    RestrictedIntent :=
  let blockedOpportunities := intent.searchOpportunities && !serviceTier.features.opportunities
  let blockedMatches := intent.getUserMatches && !serviceTier.features.«matches»
  { intent with
    searchOpportunities := intent.searchOpportunities && serviceTier.features.opportunities
    getUserMatches := intent.getUserMatches && serviceTier.features.«matches»
    searchResources := intent.searchResources && serviceTier.features.resources
    blockedFeatures :=
      if blockedOpportunities || blockedMatches then
        some ⟨blockedOpportunities, blockedMatches⟩
      else none }

/-- Reported blocked-opportunities flag of a restricted intent (`false` when
the `blockedFeatures` object is absent). -/
def reportedBlockedOpportunities (r : RestrictedIntent) : Bool :=
  match r.blockedFeatures with
  | none => false
  | some b => b.opportunities

/-- Reported blocked-matches flag of a restricted intent (`false` when the
`blockedFeatures` object is absent). -/
def reportedBlockedMatches (r : RestrictedIntent) : Bool :=
  match r.blockedFeatures with
  | none => false
  | some b => b.«matches»

/-! ## Claim C9 -/

/-- C9: `applyTierRestrictions` never grants a search capability the tier does
not allow: the restricted flags are the requested flags conjoined with the
tier's feature flags; for a tier whose opportunities (resp. matches) flag is
false the restricted `searchOpportunities` (resp. `getUserMatches`) is always
false; and `blockedFeatures` records exactly the features requested by the
intent but disabled by the tier (for the three tiers produced by
`determineUserTier` the `resources` feature is always enabled, so only
opportunities and matches can ever be blocked). -/
theorem applyTierRestrictions_no_escalation :
    (∀ (intent : SearchIntent) (t : UserServiceTier),
      (applyTierRestrictions intent t).searchOpportunities =
        (intent.searchOpportunities && t.features.opportunities) ∧
      (applyTierRestrictions intent t).getUserMatches =
        (intent.getUserMatches && t.features.«matches») ∧
      (applyTierRestrictions intent t).searchResources =
        (intent.searchResources && t.features.resources)) ∧
    (∀ (intent : SearchIntent) (t : UserServiceTier),
      t.features.opportunities = false →
      (applyTierRestrictions intent t).searchOpportunities = false) ∧
    (∀ (intent : SearchIntent) (t : UserServiceTier),
      t.features.«matches» = false →
      (applyTierRestrictions intent t).getUserMatches = false) ∧
    (∀ (intent : SearchIntent) (s : Option String),
      reportedBlockedOpportunities (applyTierRestrictions intent (determineUserTier s)) =
        (intent.searchOpportunities && !(determineUserTier s).features.opportunities) ∧
      reportedBlockedMatches (applyTierRestrictions intent (determineUserTier s)) =
        (intent.getUserMatches && !(determineUserTier s).features.«matches»)) ∧
    (∀ s : Option String, (determineUserTier s).features.resources = true) := by
  have hblocked : ∀ (intent : SearchIntent) (t : UserServiceTier),
      reportedBlockedOpportunities (applyTierRestrictions intent t) =
        (intent.searchOpportunities && !t.features.opportunities) ∧
      reportedBlockedMatches (applyTierRestrictions intent t) =
        (intent.getUserMatches && !t.features.«matches») := by
    intro intent t
    unfold applyTierRestrictions reportedBlockedOpportunities reportedBlockedMatches
    rcases intent with ⟨req, so, sr, um, od, oid, kw⟩
    rcases t with ⟨tier, acc, m, ⟨fo, fm, fr, f4, f5, f6, f7⟩, lim⟩
    cases so <;> cases um <;> cases fo <;> cases fm <;> exact ⟨rfl, rfl⟩
  refine ⟨?_, ?_, ?_, fun intent s => hblocked intent (determineUserTier s), ?_⟩
  · intro intent t
    exact ⟨rfl, rfl, rfl⟩
  · intro intent t h
    simp [applyTierRestrictions, h]
  · intro intent t h
    simp [applyTierRestrictions, h]
  · intro s
    unfold determineUserTier
    by_cases h₁ : resolvedStatus s = "Founder Club" <;>
      by_cases h₂ : resolvedStatus s = "Premium" <;>
        simp [h₁, h₂, founderConfig, premiumConfig, freeConfig]

/-- Witness for C9: the tier-restriction theorem applied to a concrete intent
requesting opportunities and matches under the Free tier (whose opportunities
flag is false), yielding a blocked search. -/
theorem applyTierRestrictions_no_escalation_witness :
    (applyTierRestrictions
      ⟨true, true, true, true, false, none, []⟩ freeConfig).searchOpportunities = false :=
  applyTierRestrictions_no_escalation.2.1
    ⟨true, true, true, true, false, none, []⟩ freeConfig (by decide)

/-! ## In-memory rate limiter (`src/unnamed/part_005`, `RateLimiter`) -/

/-- A value of the `RateLimiter.requests` map: `{ count, resetTime }`. -/
structure RLEntry where
  count : Nat
  resetTime : Int
  deriving DecidableEq, Repr

/-- The process-local `RateLimiter.requests` map, modelled as an association
list keyed by identifier. -/
def RLState : Type := List (String × RLEntry)

/-- Result of `RateLimiter.checkRateLimit`. -/
structure RLResult where
  allowed : Bool
  remaining : Nat
  resetTime : Int
  deriving DecidableEq, Repr

/-- Store an entry under a key in the requests map (`this.requests.set`). -/
def rlSet (st : RLState) (key : String) (v : RLEntry) : RLState :=
  (key, v) :: List.filter (fun p => p.1 ≠ key) st

/-- Look up a key in the requests map (`this.requests.get`). -/
def rlGet (st : RLState) (key : String) : Option RLEntry :=
  (List.find? (fun p => p.1 = key) st).map Prod.snd

/-- `RateLimiter.checkRateLimit(identifier, limit, windowMs)` at time `now`
(`Date.now()`), returning the result together with the updated map. -/
def checkRateLimit (st : RLState) (identifier : String) (limit : Nat)
    (windowMs : Int) (now : Int) : RLResult × RLState :=
  match rlGet st identifier with
  | none =>
      (⟨true, limit - 1, now + windowMs⟩, rlSet st identifier ⟨1, now + windowMs⟩)
  | some current =>
      if now > current.resetTime then
        (⟨true, limit - 1, now + windowMs⟩, rlSet st identifier ⟨1, now + windowMs⟩)
      else if current.count ≥ limit then
        (⟨false, 0, current.resetTime⟩, st)
      else
        (⟨true, limit - (current.count + 1), current.resetTime⟩,
         rlSet st identifier ⟨current.count + 1, current.resetTime⟩)

/-- Run `checkRateLimit` for one identifier over a list of call times,
counting how many calls returned `allowed = true`. -/
def allowedCountRun (st : RLState) (identifier : String) (limit : Nat)
    (windowMs : Int) : List Int → Nat
  | [] => 0
  | t :: ts =>
      let r := checkRateLimit st identifier limit windowMs t
      (if r.1.allowed then 1 else 0) + allowedCountRun r.2 identifier limit windowMs ts

theorem rlGet_rlSet (st : RLState) (key : String) (v : RLEntry) :
    rlGet (rlSet st key v) key = some v := by
  simp [rlGet, rlSet]

/-- Auxiliary invariant for the window bound: starting from a map whose entry
for the identifier is `⟨c, r⟩`, calls at times that never exceed `r` produce at
most `limit - c` allowed results. -/
theorem allowedCountRun_le (identifier : String) (limit : Nat) (windowMs : Int)
    (ts : List Int) :
    ∀ (st : RLState) (c : Nat) (r : Int),
      rlGet st identifier = some ⟨c, r⟩ →
      (∀ t ∈ ts, t ≤ r) →
      allowedCountRun st identifier limit windowMs ts ≤ limit - c := by
  induction ts with
  | nil => intro st c r _ _; simp [allowedCountRun]
  | cons t ts ih =>
      intro st c r hget hts
      have hle : t ≤ r := hts t (List.mem_cons_self t ts)
      have htr : ¬ t > r := not_lt.mpr hle
      have hrest : ∀ t' ∈ ts, t' ≤ r := fun t' ht' => hts t' (List.mem_cons_of_mem t ht')
      simp only [allowedCountRun, checkRateLimit, hget]
      rw [if_neg htr]
      by_cases hcl : c ≥ limit
      · rw [if_pos hcl]
        have h1 := ih st c r hget hrest
        simpa using h1
      · rw [if_neg hcl]
        have h1 := ih (rlSet st identifier ⟨c + 1, r⟩) (c + 1) r
          (rlGet_rlSet st identifier ⟨c + 1, r⟩) hrest
        have hcl' : c < limit := not_le.mp hcl
        simp only [if_pos]
        omega

/-! ## Claim C6 -/

/-- C6: the in-memory `RateLimiter.checkRateLimit` state machine. The first
call for an identifier (or the first call after `now` exceeds the stored
`resetTime`) initializes the entry with count 1 and returns `allowed = true`,
`remaining = limit - 1` and `resetTime = now + windowMs`; each subsequent
in-window call increments the count while it is below the limit and returns
`allowed = true`; once the count reaches the limit, every further call at or
before `resetTime` returns `allowed = false` with `remaining = 0` and the
unchanged `resetTime`, leaving the map unchanged. Consequently, within a
single window at most `limit` calls return `allowed = true`. -/
theorem checkRateLimit_window_state_machine
    (identifier : String) (limit : Nat) (windowMs : Int) (hpos : 0 < limit) :
    (∀ (st : RLState) (now : Int), rlGet st identifier = none →
      checkRateLimit st identifier limit windowMs now =
        (⟨true, limit - 1, now + windowMs⟩, rlSet st identifier ⟨1, now + windowMs⟩)) ∧
    (∀ (st : RLState) (now : Int) (c : Nat) (r : Int),
      rlGet st identifier = some ⟨c, r⟩ → now > r →
      checkRateLimit st identifier limit windowMs now =
        (⟨true, limit - 1, now + windowMs⟩, rlSet st identifier ⟨1, now + windowMs⟩)) ∧
    (∀ (st : RLState) (now : Int) (c : Nat) (r : Int),
      rlGet st identifier = some ⟨c, r⟩ → now ≤ r → c < limit →
      checkRateLimit st identifier limit windowMs now =
        (⟨true, limit - (c + 1), r⟩, rlSet st identifier ⟨c + 1, r⟩)) ∧
    (∀ (st : RLState) (now : Int) (c : Nat) (r : Int),
      rlGet st identifier = some ⟨c, r⟩ → now ≤ r → c ≥ limit →
      checkRateLimit st identifier limit windowMs now = (⟨false, 0, r⟩, st)) ∧
    (∀ (st : RLState) (t0 : Int) (ts : List Int), rlGet st identifier = none →
      (∀ t ∈ ts, t ≤ t0 + windowMs) →
      allowedCountRun st identifier limit windowMs (t0 :: ts) ≤ limit) := by
  refine ⟨?_, ?_, ?_, ?_, ?_⟩
  · intro st now hget
    simp [checkRateLimit, hget]
  · intro st now c r hget hgt
    simp only [checkRateLimit, hget]
    rw [if_pos hgt]
  · intro st now c r hget hle hlt
    simp only [checkRateLimit, hget]
    rw [if_neg (not_lt.mpr hle), if_neg (not_le.mpr hlt)]
  · intro st now c r hget hle hge
    simp only [checkRateLimit, hget]
    rw [if_neg (not_lt.mpr hle), if_pos hge]
  · intro st t0 ts hget hts
    simp only [allowedCountRun, checkRateLimit, hget]
    have h1 := allowedCountRun_le identifier limit windowMs ts
      (rlSet st identifier ⟨1, t0 + windowMs⟩) 1 (t0 + windowMs)
      (rlGet_rlSet st identifier ⟨1, t0 + windowMs⟩) hts
    simp only [if_pos]
    omega

/-- Witness for C6: from an empty map and `limit = 2`, a window-opening call
at time 0 followed by in-window calls at times 3 and 7 (window 10 ms) yields
at most 2 allowed calls. -/
theorem checkRateLimit_window_state_machine_witness :
    allowedCountRun ([] : RLState) "user-1" 2 10 [0, 3, 7] ≤ 2 :=
  (checkRateLimit_window_state_machine "user-1" 2 10 (by decide)).2.2.2.2
    [] 0 [3, 7] rfl (by decide)

/-! ## Airtable data model (`src/src/lib/airtable.ts`) -/

/-- JavaScript `Date`, modelled as a day index plus milliseconds within the
day (`startOfDay` zeroes the millisecond component; `setDate` arithmetic moves
the day index). -/
structure JSDate where
  day : Int
  ms : Nat
  deriving DecidableEq, Repr

/-- Strict order on `JSDate` values. -/
def JSDate.isBefore (a b : JSDate) : Bool :=
  a.day < b.day || (a.day = b.day && a.ms < b.ms)

/-- Start of the day that follows `d` (midnight). -/
def nextDayStart (d : JSDate) : JSDate := ⟨d.day + 1, 0⟩

/-- JavaScript `x || default` for an optional string field: a missing value or
the empty string falls back to the default. -/
def jsOr (v : Option String) (dflt : String) : String :=
  match v with
  | none => dflt
  | some "" => dflt
  | some s => s

/-- A raw row of the opportunities table, with the fields read by
`searchOpportunities` (`record.id`, `title`, `aisummary`, `Date`,
`description`, `opportunityID`). -/
structure OppRecord where
  recId : String
  title : Option String
  aisummary : Option String
  date : Option String
  description : Option String
  opportunityID : Option String
  deriving DecidableEq, Repr

/-- The lightweight `Opportunity` object built by `searchOpportunities`. -/
structure Opportunity where
  id : String
  title : String
  description : String
  otype : String
  status : String
  deadline : Option String
  category : String
  applicationUrl : Option String
  agency : Option String
  requirements : Option String
  benefits : Option String
  location : Option String
  salaryRange : Option String
  experienceLevel : Option String
  postedDate : Option String
  tags : Option (List String)
  opportunityID : Option String
  fullDescription : Option String
  deriving DecidableEq, Repr

/-- Mapping of a raw opportunity record to the lightweight format
(the `records.map` callback inside `searchOpportunities`). -/
def mapOpportunityRecord (r : OppRecord) : Opportunity :=
  { id := r.recId
    title := jsOr r.title "Untitled"
    description := jsOr r.aisummary "No summary available"
    otype := "Government Contract"
    status := "Available"
    deadline := r.date
    category := "Government Opportunity"
    applicationUrl := none
    agency := none
    requirements := none
    benefits := none
    location := none
    salaryRange := none
    experienceLevel := none
    postedDate := r.date
    tags := none
    opportunityID := r.opportunityID
    fullDescription := r.description }

/-- Ascending comparison on the optional `Date` field used by the
`sort: [{ field: 'Date', direction: 'asc' }]` select option (a missing date
sorts first; the exact server-side collation is irrelevant to the claims and
is modelled as string order). -/
def dateFieldLe (a b : OppRecord) : Bool :=
  match a.date, b.date with
  | none, _ => true
  | some _, none => false
  | some x, some y => decide (x ≤ y)

/-- Insertion into a list sorted by `dateFieldLe` (model of the Airtable
server-side sort). -/
def insertByDate (r : OppRecord) : List OppRecord → List OppRecord
  | [] => [r]
  | x :: xs => if dateFieldLe r x then r :: x :: xs else x :: insertByDate r xs

/-- Model of the Airtable server-side ascending sort on the `Date` field. -/
def sortByDate (l : List OppRecord) : List OppRecord :=
  l.foldr insertByDate []

theorem insertByDate_length (r : OppRecord) (l : List OppRecord) :
    (insertByDate r l).length = l.length + 1 := by
  induction l with
  | nil => rfl
  | cons x xs ih =>
      unfold insertByDate
      by_cases h : dateFieldLe r x
      · rw [if_pos h]; rfl
      · rw [if_neg h]; simp [ih]

theorem sortByDate_length (l : List OppRecord) :
    (sortByDate l).length = l.length := by
  unfold sortByDate
  induction l with
  | nil => rfl
  | cons x xs ih => simp [List.foldr, insertByDate_length, ih]

/-- `AirtableService.searchOpportunities(query, userId, limit)`: selects up to
`limit` records from the opportunities table sorted ascending by `Date` and
maps each to the lightweight format. The `query` and `userId` arguments are
only logged. -/
def searchOpportunities (query : String) (userId : String) (limit : Nat)
    (table : List OppRecord) : List Opportunity :=
  let _ := query
  let _ := userId
  let records := (sortByDate table).take limit
  records.map mapOpportunityRecord

/-- Default value of the `limit` parameter of `searchOpportunities`. -/
def searchOpportunitiesDefaultLimit : Nat := 10

/-! ## Claim C4 -/

/-- C4: `searchOpportunities` returns at most `limit` records (default 10)
and its result does not depend on the query argument: for a fixed table state,
any two query strings produce identical opportunity lists — no ranking,
filtering or relevance computation over the query occurs. -/
theorem searchOpportunities_ignores_query :
    (∀ (q₁ q₂ userId : String) (limit : Nat) (table : List OppRecord),
      searchOpportunities q₁ userId limit table =
        searchOpportunities q₂ userId limit table) ∧
    (∀ (q userId : String) (limit : Nat) (table : List OppRecord),
      (searchOpportunities q userId limit table).length ≤ limit) ∧
    searchOpportunitiesDefaultLimit = 10 := by
  refine ⟨fun _ _ _ _ _ => rfl, ?_, rfl⟩
  intro q userId limit table
  unfold searchOpportunities
  simp [List.length_take]

/-! ## Conversations and `safeTableOperation` (`src/src/lib/airtable.ts`) -/

/-- An error thrown by an Airtable operation (`statusCode` plus message). -/
structure AirErr where
  statusCode : Option Nat
  message : String
  deriving DecidableEq, Repr

/-- List-prefix test on characters. -/
def listPrefixOf : List Char → List Char → Bool
  | [], _ => true
  | _ :: _, [] => false
  | a :: as, b :: bs => a = b && listPrefixOf as bs

/-- Substring test (JavaScript `String.prototype.includes`). -/
def containsSub (needle : List Char) : List Char → Bool
  | [] => listPrefixOf needle []
  | c :: rest => listPrefixOf needle (c :: rest) || containsSub needle rest

/-- JavaScript `message.includes(needle)` on strings. -/
def strIncludes (message needle : String) : Bool :=
  containsSub needle.data message.data

/-- `safeTableOperation`: a 404 / `NOT_FOUND` / `not found` error is swallowed
and turned into `null`; every other error is rethrown. -/
def safeTableOperation {α : Type} (op : Except AirErr α) : Except AirErr (Option α) :=
  match op with
  | .ok a => .ok (some a)
  | .error e =>
      if e.statusCode = some 404 || strIncludes e.message "NOT_FOUND" ||
          strIncludes e.message "not found" then
        .ok none
      else .error e

/-- A raw row of the conversations table, with the fields read by
`mapConversationRecord`. Dates and the JSON `Tags` column are modelled
already parsed. -/
structure ConvRecord where
  recId : String
  conversationId : Option String
  userId : Option String
  title : Option String
  isEncrypted : Option Bool
  status : Option String
  tags : Option (List String)
  createdAt : Option JSDate
  updatedAt : Option JSDate
  lastMessageAt : Option JSDate
  messageCount : Option Nat
  deriving DecidableEq, Repr

/-- The `Conversation` application type as populated by
`mapConversationRecord`. -/
structure Conversation where
  id : String
  userId : Option String
  title : Option String
  isEncrypted : Bool
  status : Option String
  tags : List String
  createdAt : Option JSDate
  updatedAt : Option JSDate
  lastMessageAt : Option JSDate
  messageCount : Nat
  deriving DecidableEq, Repr

/-- `AirtableService.mapConversationRecord`. -/
def mapConversationRecord (r : ConvRecord) : Conversation :=
  { id := jsOr r.conversationId r.recId
    userId := r.userId
    title := r.title
    isEncrypted := r.isEncrypted.getD false
    status := r.status
    tags := r.tags.getD []
    createdAt := r.createdAt
    updatedAt := r.updatedAt
    lastMessageAt := r.lastMessageAt
    messageCount := r.messageCount.getD 0 }

/-- The Airtable formula `{Conversation_ID} = 'cid'` (a blank field reads as
the empty string in formulas). -/
def convMatches (cid : String) (r : ConvRecord) : Bool :=
  r.conversationId.getD "" = cid

/-- `AirtableService.getConversation(conversationId, userId)` over a table
state: fetch the first record whose `Conversation_ID` equals the argument,
return `null` when none matches, and otherwise throw
`'Unauthorized access to conversation'` unless the mapped record's `User_ID`
equals the caller's `userId`. The whole operation runs inside
`safeTableOperation`. -/
def getConversation (conversationId userId : String) (table : List ConvRecord) :
    Except AirErr (Option Conversation) :=
  let op : Except AirErr (Option Conversation) :=
    match (table.filter (convMatches conversationId)).take 1 with
    | [] => .ok none
    | r :: _ =>
        let conversation := mapConversationRecord r
        if conversation.userId ≠ some userId then
          .error ⟨none, "Unauthorized access to conversation"⟩
        else .ok (some conversation)
  (safeTableOperation op).map Option.join

/-! ## Claim C5 -/

/-- C5: `getConversation` enforces ownership only by comparing the fetched
record's `User_ID` to the caller's `userId` after retrieval: when the first
matching record's mapped `userId` differs from the requester, the call raises
`'Unauthorized access to conversation'` (the error is rethrown, not swallowed,
by `safeTableOperation`) and never returns the conversation; when it matches,
the conversation is returned; when no record matches, `null` is returned. -/
theorem getConversation_ownership_check :
    (∀ (cid uid : String) (table : List ConvRecord) (r : ConvRecord),
      (table.filter (convMatches cid)).head? = some r →
      (mapConversationRecord r).userId ≠ some uid →
      getConversation cid uid table =
        .error ⟨none, "Unauthorized access to conversation"⟩) ∧
    (∀ (cid uid : String) (table : List ConvRecord) (r : ConvRecord),
      (table.filter (convMatches cid)).head? = some r →
      (mapConversationRecord r).userId = some uid →
      getConversation cid uid table = .ok (some (mapConversationRecord r))) ∧
    (∀ (cid uid : String) (table : List ConvRecord),
      (table.filter (convMatches cid)).head? = none →
      getConversation cid uid table = .ok none) := by
  refine ⟨?_, ?_, ?_⟩
  · intro cid uid table r hhead hne
    unfold getConversation
    cases hf : table.filter (convMatches cid) with
    | nil => rw [hf] at hhead; simp at hhead
    | cons a rest =>
        rw [hf] at hhead
        simp only [List.head?] at hhead
        cases hhead
        simp only [List.take, if_neg]
        rw [if_pos hne]
        rfl
  · intro cid uid table r hhead heq
    unfold getConversation
    cases hf : table.filter (convMatches cid) with
    | nil => rw [hf] at hhead; simp at hhead
    | cons a rest =>
        rw [hf] at hhead
        simp only [List.head?] at hhead
        cases hhead
        simp only [List.take]
        rw [if_neg (by simp [heq])]
        rfl
  · intro cid uid table hhead
    unfold getConversation
    cases hf : table.filter (convMatches cid) with
    | nil => rfl
    | cons a rest => rw [hf] at hhead; simp at hhead

/-- Witness for C5: a one-row table owned by `"owner"` queried by
`"intruder"` yields the unauthorized error. -/
theorem getConversation_ownership_check_witness :
    getConversation "conv-1" "intruder"
      [{ recId := "rec1", conversationId := some "conv-1", userId := some "owner"
         title := none, isEncrypted := none, status := none, tags := none
         createdAt := none, updatedAt := none, lastMessageAt := none
         messageCount := none }] =
      .error ⟨none, "Unauthorized access to conversation"⟩ :=
  getConversation_ownership_check.1 "conv-1" "intruder" _
    { recId := "rec1", conversationId := some "conv-1", userId := some "owner"
      title := none, isEncrypted := none, status := none, tags := none
      createdAt := none, updatedAt := none, lastMessageAt := none
      messageCount := none }
    (by decide) (by decide)

/-! ## Data retention sweep (`src/src/lib/airtable.ts`, `cleanupOldData`) -/

/-- JavaScript `date.setDate(date.getDate() - n)`: move the day index back by
`n` days, keeping the time of day. -/
def subDays (d : JSDate) (n : Int) : JSDate := ⟨d.day - n, d.ms⟩

/-- A raw row of the messages table; `timestamp` is the `Timestamp` field the
record was created with. -/
structure MsgRecord where
  id : String
  timestamp : JSDate
  deriving DecidableEq, Repr

/-- The Airtable base state touched by `cleanupOldData`: the messages table
plus the other tables (represented by conversations and opportunities), which
the sweep never selects from. -/
structure AirtableState where
  messages : List MsgRecord
  conversations : List ConvRecord
  opportunities : List OppRecord
  deriving DecidableEq, Repr

/-- `tables.messages.destroy(id)`: remove the record with the given id. -/
def destroyMessage (st : AirtableState) (i : String) : AirtableState :=
  { st with messages := st.messages.filter (fun m => m.id ≠ i) }

/-- `AirtableService.cleanupOldData` at current time `now`: select the
messages whose `Timestamp` is before `now` minus 90 days (the retention
cutoff) and destroy each one. -/
def cleanupOldData (now : JSDate) (st : AirtableState) : AirtableState :=
  let retentionDays : Int := 90
  let cutoffDate := subDays now retentionDays
  let oldMessages := st.messages.filter (fun m => m.timestamp.isBefore cutoffDate)
  oldMessages.foldl (fun s m => destroyMessage s m.id) st

theorem foldl_destroyMessage (S : List MsgRecord) :
    ∀ st : AirtableState,
      (S.foldl (fun s m => destroyMessage s m.id) st).messages =
        st.messages.filter (fun r => !(S.any (fun m => r.id = m.id))) ∧
      (S.foldl (fun s m => destroyMessage s m.id) st).conversations =
        st.conversations ∧
      (S.foldl (fun s m => destroyMessage s m.id) st).opportunities =
        st.opportunities := by
  induction S with
  | nil =>
      intro st
      refine ⟨?_, rfl, rfl⟩
      simp
  | cons m S ih =>
      intro st
      obtain ⟨h1, h2, h3⟩ := ih (destroyMessage st m.id)
      refine ⟨?_, h2, h3⟩
      rw [List.foldl_cons, h1]
      show (st.messages.filter (fun r => r.id ≠ m.id)).filter _ = _
      rw [List.filter_filter]
      apply List.filter_congr
      intro r _
      cases h : decide (r.id = m.id) <;>
        simp [List.any_cons, decide_eq_true_eq] at h ⊢ <;> simp [h]

/-! ## Claim C8 -/

/-- C8: `cleanupOldData` deletes exactly the message records whose `Timestamp`
is earlier than 90 days before the current time, and nothing else: every
message at or after the cutoff survives, and the other tables are untouched.
Record ids are assumed unique, as Airtable guarantees. -/
theorem cleanupOldData_retention_exact (now : JSDate) (st : AirtableState)
    (hids : (st.messages.map MsgRecord.id).Nodup) :
    (cleanupOldData now st).messages =
      st.messages.filter
        (fun m => !(m.timestamp.isBefore (subDays now 90))) ∧
    (cleanupOldData now st).conversations = st.conversations ∧
    (cleanupOldData now st).opportunities = st.opportunities := by
  obtain ⟨h1, h2, h3⟩ :=
    foldl_destroyMessage
      (st.messages.filter (fun m => m.timestamp.isBefore (subDays now 90))) st
  refine ⟨?_, h2, h3⟩
  rw [cleanupOldData]
  rw [h1]
  apply List.filter_congr
  intro r hr
  by_cases hp : r.timestamp.isBefore (subDays now 90) = true
  · have hmem : r ∈ st.messages.filter
        (fun m => m.timestamp.isBefore (subDays now 90)) :=
      List.mem_filter.mpr ⟨hr, hp⟩
    have hany : (st.messages.filter
        (fun m => m.timestamp.isBefore (subDays now 90))).any
          (fun m => r.id = m.id) = true :=
      List.any_eq_true.mpr ⟨r, hmem, by simp⟩
    rw [hany, hp]
  · have hnp : r.timestamp.isBefore (subDays now 90) = false :=
      Bool.not_eq_true _ ▸ eq_false_of_ne_true hp
    have hany : (st.messages.filter
        (fun m => m.timestamp.isBefore (subDays now 90))).any
          (fun m => r.id = m.id) = false := by
      rw [Bool.eq_false_iff]
      intro hcontra
      obtain ⟨m, hm, hid⟩ := List.any_eq_true.mp hcontra
      obtain ⟨hmmem, hmold⟩ := List.mem_filter.mp hm
      have : r = m :=
        List.inj_on_of_nodup_map hids hr hmmem (by simpa using hid)
      rw [this] at hnp
      rw [hmold] at hnp
      exact Bool.noConfusion hnp
    rw [hany, hnp]

/-- Witness for C8: a two-row messages table whose first row is 95 days old
and whose second is 50 days old; the sweep at day 100 keeps exactly the
filtered survivors. -/
theorem cleanupOldData_retention_exact_witness :
    (cleanupOldData ⟨100, 0⟩
      { messages := [⟨"m1", ⟨5, 0⟩⟩, ⟨"m2", ⟨50, 0⟩⟩]
        conversations := [], opportunities := [] }).messages =
      [(⟨"m1", ⟨5, 0⟩⟩ : MsgRecord), ⟨"m2", ⟨50, 0⟩⟩].filter
        (fun m => !(m.timestamp.isBefore (subDays ⟨100, 0⟩ 90))) :=
  (cleanupOldData_retention_exact ⟨100, 0⟩
    { messages := [⟨"m1", ⟨5, 0⟩⟩, ⟨"m2", ⟨50, 0⟩⟩]
      conversations := [], opportunities := [] } (by decide)).1

/-! ## Daily message limits (`src/src/app/page.tsx`, `UsageTrackingService`) -/

/-- Result of `UsageTrackingService.checkDailyMessageLimit`. -/
structure DailyLimitResult where
  allowed : Bool
  current : Nat
  limit : Nat
  resetsAt : JSDate
  deriving DecidableEq, Repr

/-- Redis state visible to `checkDailyMessageLimit`: the stored daily-message
counter for (user, today), or `none` when the key is absent; `failing = true`
models a thrown Redis error (the catch branch). -/
structure RedisDailyState where
  count : String → Option Nat
  failing : Bool

/-- `UsageTrackingService.checkDailyMessageLimit(userId, tier)` at time `now`:
reads today's counter, compares it against the tier's `messagesPerDay` (from
`determineUserTier` on the tier's string value), and reports a reset time at
the start of the next day. If Redis throws, the fallback allows the message
with limit 999999. -/
def checkDailyMessageLimit (redis : RedisDailyState) (now : JSDate)
    (userId : String) (tier : SubscriptionTier) : DailyLimitResult :=
  if redis.failing then
    { allowed := true, current := 0, limit := 999999, resetsAt := now }
  else
    let serviceTier := determineUserTier (some tier.str)
    let currentCount := (redis.count userId).getD 0
    let limit := serviceTier.limits.messagesPerDay
    { allowed := currentCount < limit
      current := currentCount
      limit := limit
      resetsAt := nextDayStart now }

/-! ## `POST /api/chat/send-message` route (`src/unnamed/part_004`) -/

/-- Externally observable side effects of the send-message handler prefix. -/
inductive Effect where
  | redisRead
  | redisWrite
  | airtableRead
  | auditLog
  deriving DecidableEq, Repr

/-- The daily-limit `details` object of the 429 response. -/
structure DailyLimitDetails where
  current : Nat
  limit : Nat
  resetsAt : JSDate
  tier : SubscriptionTier
  upgradeUrl : Option String
  deriving DecidableEq, Repr

/-- An HTTP JSON response of the send-message route, reduced to the fields
the claims are about. -/
structure ChatResp where
  status : Nat
  success : Bool
  errorCode : Option String
  dailyDetails : Option DailyLimitDetails
  deriving DecidableEq, Repr

/-- Request body of `POST /api/chat/send-message`, reduced to the fields the
modelled prefix reads. `message = none` covers an absent or non-string value;
an empty string is falsy in the `!message` test. `sessionToken = none` covers
an absent or otherwise falsy token. -/
structure SendMessageBody where
  message : Option String
  sessionToken : Option String
  deriving DecidableEq, Repr

/-- Environment of the send-message handler: the outcomes of its external
calls. `verifyJWT` returns the session's user id or `none` when verification
throws; `cachedTier` is `UsageTrackingService.getCachedUserTier`;
`userProfileStatus` is the `Subscription_Status` of the fetched profile
(`none` when the profile or field is missing); `rateLimitBlock` is the 429
response produced by `RateLimitingService.applyRateLimit` when it denies the
request (`none` when allowed); `rest` is the remainder of the handler after
the modelled prefix (sanitization, context assembly, the model call and
persistence). -/
structure ChatEnv where
  verifyJWT : String → Option String
  cachedTier : String → Option UserServiceTier
  userProfileStatus : String → Option String
  rateLimitBlock : Option ChatResp
  redis : RedisDailyState
  now : JSDate
  rest : ChatResp × List Effect

/-- Tier resolution step of the send-message handler: use the cached tier
when present, otherwise fetch the profile, derive the tier from its
subscription status and cache it. Returns the tier and the effects
performed. -/
def resolveServiceTier (env : ChatEnv) (userId : String) :
    UserServiceTier × List Effect :=
  match env.cachedTier userId with
  | some t => (t, [Effect.redisRead])
  | none =>
      let status := jsOr (env.userProfileStatus userId) "Free"
      (determineUserTier (some status),
        [Effect.redisRead, Effect.airtableRead, Effect.redisWrite])

/-- The `POST /api/chat/send-message` handler, modelled through its guard
prefix in source order: message validation (400), session-token presence
(401 `UNAUTHORIZED`), JWT verification (401 `INVALID_SESSION`), tier
resolution, rate limiting (ready-made 429 response), and the daily message
limit check (429 `DAILY_LIMIT_EXCEEDED` with current/limit/resetsAt details).
Past the prefix the handler continues as `env.rest`. The second component
accumulates the external effects performed before returning. -/
def sendMessage (env : ChatEnv) (body : SendMessageBody) : ChatResp × List Effect :=
  match body.message with
  | none => (⟨400, false, some "INVALID_MESSAGE", none⟩, [])
  | some m =>
    if m = "" then (⟨400, false, some "INVALID_MESSAGE", none⟩, [])
    else
      match body.sessionToken with
      | none => (⟨401, false, some "UNAUTHORIZED", none⟩, [])
      | some tok =>
        match env.verifyJWT tok with
        | none => (⟨401, false, some "INVALID_SESSION", none⟩, [Effect.auditLog])
        | some userId =>
          let tierStep := resolveServiceTier env userId
          let serviceTier := tierStep.1
          let userTier := serviceTier.tier
          match env.rateLimitBlock with
          | some blockResp => (blockResp, tierStep.2 ++ [Effect.redisRead])
          | none =>
            let daily := checkDailyMessageLimit env.redis env.now userId userTier
            if !daily.allowed then
              (⟨429, false, some "DAILY_LIMIT_EXCEEDED",
                 some { current := daily.current
                        limit := daily.limit
                        resetsAt := daily.resetsAt
                        tier := userTier
                        upgradeUrl :=
                          if userTier = .free then some "https://vadiy.com/upgrade"
                          else none }⟩,
               tierStep.2 ++ [Effect.redisRead, Effect.redisRead])
            else
              (env.rest.1, tierStep.2 ++ [Effect.redisRead, Effect.redisRead] ++ env.rest.2)

/-! ## Claim C2 -/

/-- C2: for every authenticated chat request whose user has already used at
least their tier's `messagesPerDay` quota for the current day (so
`checkDailyMessageLimit` returns `allowed = false` because
`current ≥ limit`), the send-message handler responds with HTTP 429 and an
error body whose details carry the current count, the limit, and a `resetsAt`
equal to the start of the next day. -/
theorem sendMessage_daily_limit_429 (env : ChatEnv) (body : SendMessageBody)
    (m tok userId : String)
    (hmsg : body.message = some m) (hm : m ≠ "")
    (htok : body.sessionToken = some tok)
    (hjwt : env.verifyJWT tok = some userId)
    (hrl : env.rateLimitBlock = none)
    (hredis : env.redis.failing = false)
    (hover : (determineUserTier
        (some (resolveServiceTier env userId).1.tier.str)).limits.messagesPerDay ≤
      (env.redis.count userId).getD 0) :
    (sendMessage env body).1 =
      ⟨429, false, some "DAILY_LIMIT_EXCEEDED",
        some { current := (env.redis.count userId).getD 0
               limit := (determineUserTier
                 (some (resolveServiceTier env userId).1.tier.str)).limits.messagesPerDay
               resetsAt := nextDayStart env.now
               tier := (resolveServiceTier env userId).1.tier
               upgradeUrl :=
                 if (resolveServiceTier env userId).1.tier = .free then
                   some "https://vadiy.com/upgrade"
                 else none }⟩ := by
  have hnotlt : ¬ ((env.redis.count userId).getD 0 <
      (determineUserTier
        (some (resolveServiceTier env userId).1.tier.str)).limits.messagesPerDay) :=
    not_lt.mpr hover
  simp only [sendMessage, hmsg, htok, hjwt, hrl, checkDailyMessageLimit, hredis]
  rw [if_neg hm]
  simp [hnotlt]

/-- Witness for C2: a Free-tier user with 50 of 50 daily messages used sends a
message at day 0; the handler answers 429 with the daily-limit details. -/
theorem sendMessage_daily_limit_429_witness :
    (sendMessage
      { verifyJWT := fun _ => some "u"
        cachedTier := fun _ => some freeConfig
        userProfileStatus := fun _ => none
        rateLimitBlock := none
        redis := { count := fun _ => some 50, failing := false }
        now := ⟨0, 123⟩
        rest := (⟨200, true, none, none⟩, []) }
      { message := some "hello", sessionToken := some "tok" }).1 =
      ⟨429, false, some "DAILY_LIMIT_EXCEEDED",
        some { current := 50, limit := 50, resetsAt := ⟨1, 0⟩
               tier := .free, upgradeUrl := some "https://vadiy.com/upgrade" }⟩ := by
  have h := sendMessage_daily_limit_429
    { verifyJWT := fun _ => some "u"
      cachedTier := fun _ => some freeConfig
      userProfileStatus := fun _ => none
      rateLimitBlock := none
      redis := { count := fun _ => some 50, failing := false }
      now := ⟨0, 123⟩
      rest := (⟨200, true, none, none⟩, []) }
    { message := some "hello", sessionToken := some "tok" }
    "hello" "tok" "u" rfl (by decide) rfl rfl rfl rfl (by decide)
  exact h

/-! ## Claim C3 -/

/-- C3: for every send-message request whose body carries a non-empty string
message but no (or a falsy) session token, the handler responds 401 with
error code `UNAUTHORIZED`, and the effect trace is empty: neither the AI
model nor any database operation is invoked. -/
theorem sendMessage_missing_token_401 (env : ChatEnv) (body : SendMessageBody)
    (m : String) (hmsg : body.message = some m) (hm : m ≠ "")
    (htok : body.sessionToken = none) :
    sendMessage env body = (⟨401, false, some "UNAUTHORIZED", none⟩, []) := by
  simp only [sendMessage, hmsg, htok]
  rw [if_neg hm]

/-- Witness for C3: a request with message `"hello"` and no session token is
rejected with 401 `UNAUTHORIZED` and no side effects. -/
theorem sendMessage_missing_token_401_witness :
    sendMessage
      { verifyJWT := fun _ => none
        cachedTier := fun _ => none
        userProfileStatus := fun _ => none
        rateLimitBlock := none
        redis := { count := fun _ => none, failing := false }
        now := ⟨0, 0⟩
        rest := (⟨200, true, none, none⟩, []) }
      { message := some "hello", sessionToken := none } =
      (⟨401, false, some "UNAUTHORIZED", none⟩, []) :=
  sendMessage_missing_token_401 _ _ "hello" rfl (by decide) rfl

/-! ## `GET /api/user/tier` route (`src/unnamed/part_004`) -/

/-- Remove the first occurrence of `pat` from a character list (JavaScript
`String.prototype.replace` with a string pattern and empty replacement). -/
def removeFirstSub (pat : List Char) : List Char → List Char
  | [] => []
  | c :: rest =>
      if listPrefixOf pat (c :: rest) then List.drop pat.length (c :: rest)
      else c :: removeFirstSub pat rest

/-- JavaScript `authHeader.replace('Bearer ', '')`. -/
def stripBearer (h : String) : String := ⟨removeFirstSub "Bearer ".data h.data⟩

/-- JavaScript `String.prototype.startsWith`, evaluated over character
lists. -/
def jsStartsWith (s pat : String) : Bool := listPrefixOf pat.data s.data

/-- Response of the tier route, reduced to the fields the claim is about.
`fallbackNote` records the extra
`error: 'Could not fetch user data, using default tier'` field of the catch
branch. -/
structure TierResp where
  status : Nat
  success : Bool
  errorCode : Option String
  serviceTier : Option UserServiceTier
  fallbackNote : Bool
  deriving DecidableEq, Repr

/-- Environment of the tier route. `profileFetch` is the
`AirtableService.getUserProfile` call: `.error` models a thrown exception,
`.ok none` a missing profile, and `.ok (some status?)` a profile with an
optional `Subscription_Status`. -/
structure TierEnv where
  authHeader : Option String
  verifyJWT : String → Option String
  profileFetch : String → Except String (Option (Option String))

/-- The `GET /api/user/tier` handler: missing/malformed authorization header
gives 401 `UNAUTHORIZED`; a failed JWT verification gives 401
`INVALID_SESSION`; otherwise the profile is fetched and the tier derived from
its subscription status; when any step of the `try` body throws (here: the
profile fetch), the catch branch answers 200 / success with the default
Free-tier configuration. -/
def getUserTier (env : TierEnv) : TierResp :=
  match env.authHeader with
  | none => ⟨401, false, some "UNAUTHORIZED", none, false⟩
  | some h =>
    if !(jsStartsWith h "Bearer ") then ⟨401, false, some "UNAUTHORIZED", none, false⟩
    else
      let sessionToken := stripBearer h
      match env.verifyJWT sessionToken with
      | none => ⟨401, false, some "INVALID_SESSION", none, false⟩
      | some userId =>
        match env.profileFetch userId with
        | .error _ =>
            ⟨200, true, none, some (determineUserTier (some "Free")), true⟩
        | .ok prof =>
            let status := jsOr prof.join "Free"
            ⟨200, true, none, some (determineUserTier (some status)), false⟩

/-! ## Claim C7 -/

/-- C7: if a step of the `GET /api/user/tier` handler throws (the
user-profile fetch fails), the handler catches the exception and responds
with HTTP 200, `success = true` and the default Free-tier configuration
(`determineUserTier('Free')`, i.e. the Free feature flags and limits) instead
of propagating the failure. -/
theorem getUserTier_fallback_free (env : TierEnv) (h userId e : String)
    (hauth : env.authHeader = some h)
    (hb : jsStartsWith h "Bearer " = true)
    (hjwt : env.verifyJWT (stripBearer h) = some userId)
    (hfail : env.profileFetch userId = .error e) :
    getUserTier env = ⟨200, true, none, some (determineUserTier (some "Free")), true⟩ ∧
    determineUserTier (some "Free") = freeConfig := by
  constructor
  · simp only [getUserTier, hauth, hb, hjwt, hfail, Bool.not_true]
    rw [if_neg]
    simp
  · rfl

/-- Witness for C7: a valid bearer token whose profile fetch throws yields
the 200 / Free-tier fallback. -/
theorem getUserTier_fallback_free_witness :
    getUserTier
      { authHeader := some "Bearer tok"
        verifyJWT := fun _ => some "u"
        profileFetch := fun _ => .error "Airtable down" } =
      ⟨200, true, none, some (determineUserTier (some "Free")), true⟩ :=
  (getUserTier_fallback_free
    { authHeader := some "Bearer tok"
      verifyJWT := fun _ => some "u"
      profileFetch := fun _ => .error "Airtable down" }
    "Bearer tok" "u" "Airtable down" rfl (by decide) rfl rfl).1

/-! ## PII masking (`src/unnamed/part_005`, `PIIProtector`)

The six fixed patterns of `PIIProtector.patterns` are JavaScript regular
expressions using only character classes, bounded repetition, greedy `?`,
greedy `+`, ordered alternation and `\b` word-boundary assertions. They are
embedded as an abstract syntax tree and executed by a backtracking matcher
with JavaScript semantics: leftmost match, left-preferring alternation,
greedy quantifiers, and `\b` relative to the characters adjacent to the
current position. `String.prototype.replace` with a global regex replaces
the non-overlapping leftmost matches, scanning left to right. -/

/-- Abstract syntax of the regular expressions used by `PIIProtector`. -/
inductive RE where
  | eps
  | cls (p : Char → Bool)
  | seq (a b : RE)
  | alt (a b : RE)
  | opt (a : RE)
  | star (a : RE)
  | wb

/-- JavaScript word character (`\w`, the class `\b` is defined from). -/
def isWordChar (c : Char) : Bool := c.isAlpha || c.isDigit || c = '_'

/-- Backtracking matcher in continuation-passing style. `prev` is the
character just before the current position (for `\b`), `k` the continuation
receiving the position after the current sub-expression; the result is the
suffix remaining after a successful match of the whole pattern. Fuel bounds
the recursion depth and is chosen large enough for every evaluation in this
file. Alternation prefers its left branch and `?`/`+` are greedy, as in
JavaScript. -/
def matchRE : Nat → RE → Option Char → List Char →
    (Option Char → List Char → Option (List Char)) → Option (List Char)
  | 0, _, _, _, _ => none
  | _ + 1, .eps, prev, s, k => k prev s
  | _ + 1, .cls p, _, s, k =>
      match s with
      | [] => none
      | c :: rest => if p c then k (some c) rest else none
  | fuel + 1, .seq a b, prev, s, k =>
      matchRE fuel a prev s (fun prev' s' => matchRE fuel b prev' s' k)
  | fuel + 1, .alt a b, prev, s, k =>
      match matchRE fuel a prev s k with
      | some r => some r
      | none => matchRE fuel b prev s k
  | fuel + 1, .opt a, prev, s, k =>
      match matchRE fuel a prev s k with
      | some r => some r
      | none => k prev s
  | fuel + 1, .star a, prev, s, k =>
      match matchRE fuel a prev s
          (fun prev' s' => matchRE fuel (.star a) prev' s' k) with
      | some r => some r
      | none => k prev s
  | _ + 1, .wb, prev, s, k =>
      let left := match prev with | none => false | some c => isWordChar c
      let right := match s with | [] => false | c :: _ => isWordChar c
      if left != right then k prev s else none

/-- Fuel that over-approximates the matcher's recursion depth on these
patterns. -/
def matchFuel (s : List Char) : Nat := 3000 + 200 * s.length

/-- Global-replace scan of JavaScript `String.prototype.replace` with a `/g`
regex: at each position try the pattern; on a match, emit the replacement and
continue after the match (the character preceding the new position is the
last matched character); otherwise emit the current character and advance.
The outer fuel is the string length plus one (every step consumes at least
one character). An empty match is impossible for the `PIIProtector` patterns
(each contains a mandatory character class); the guard then simply
advances. -/
def replAll (re : RE) (f : List Char → List Char) :
    Nat → Option Char → List Char → List Char
  | 0, _, s => s
  | fuel + 1, prev, s =>
      match matchRE (matchFuel s) re prev s (fun _ rest => some rest) with
      | some rest =>
          let n := s.length - rest.length
          if n = 0 then
            match s with
            | [] => []
            | c :: cs => c :: replAll re f fuel (some c) cs
          else
            let matched := s.take n
            f matched ++ replAll re f fuel matched.getLast? rest
      | none =>
          match s with
          | [] => []
          | c :: cs => c :: replAll re f fuel (some c) cs

/-- One literal character. -/
def lit1 (c : Char) : RE := .cls (fun x => x = c)

/-- One literal character, case-insensitive (`/i` flag). -/
def lit1CI (c : Char) : RE := .cls (fun x => x.toLower = c.toLower)

/-- A literal string as a sequence. -/
def litStr (s : String) : RE := s.data.foldr (fun c r => .seq (lit1 c) r) .eps

/-- A literal string, case-insensitive. -/
def litStrCI (s : String) : RE := s.data.foldr (fun c r => .seq (lit1CI c) r) .eps

/-- Bounded repetition `a{n}`. -/
def reps : Nat → RE → RE
  | 0, _ => .eps
  | n + 1, a => .seq a (reps n a)

/-- Greedy `a+`. -/
def plus (a : RE) : RE := .seq a (.star a)

/-- Greedy `a{2,}`. -/
def atLeast2 (a : RE) : RE := .seq a (.seq a (.star a))

/-- Ordered alternation of a non-empty list (left-to-right preference). -/
def altList : RE → List RE → RE
  | a, [] => a
  | a, b :: rest => .alt a (altList b rest)

/-- JavaScript `\s` (the ASCII part, which is all these inputs use). -/
def jsSpace (c : Char) : Bool :=
  c = ' ' || c = '\t' || c = '\n' || c = '\r' || c = '\x0b' || c = '\x0c'

/-- Class `\d`. -/
def dCls : RE := .cls Char.isDigit

/-- Class `[A-Za-z0-9._%+-]` (email local part). -/
def emailLocalCls : RE :=
  .cls (fun c => c.isAlpha || c.isDigit || c = '.' || c = '_' || c = '%' ||
    c = '+' || c = '-')

/-- Class `[A-Za-z0-9.-]` (email domain). -/
def emailDomainCls : RE :=
  .cls (fun c => c.isAlpha || c.isDigit || c = '.' || c = '-')

/-- Class `[A-Z|a-z]` (email TLD; the literal `|` is part of the class). -/
def emailTldCls : RE :=
  .cls (fun c => ('A' ≤ c && c ≤ 'Z') || c = '|' || ('a' ≤ c && c ≤ 'z'))

/-- `ssn: /\b\d{3}-?\d{2}-?\d{4}\b/g`. -/
def ssnRE : RE :=
  .seq .wb (.seq (reps 3 dCls) (.seq (.opt (lit1 '-'))
    (.seq (reps 2 dCls) (.seq (.opt (lit1 '-')) (.seq (reps 4 dCls) .wb)))))

/-- `phone: /\b\d{3}[-.]?\d{3}[-.]?\d{4}\b/g`. -/
def phoneRE : RE :=
  let sep := RE.opt (.cls (fun c => c = '-' || c = '.'))
  .seq .wb (.seq (reps 3 dCls) (.seq sep
    (.seq (reps 3 dCls) (.seq sep (.seq (reps 4 dCls) .wb)))))

/-- `email: /\b[A-Za-z0-9._%+-]+@[A-Za-z0-9.-]+\.[A-Z|a-z]{2,}\b/g`. -/
def emailRE : RE :=
  .seq .wb (.seq (plus emailLocalCls) (.seq (lit1 '@')
    (.seq (plus emailDomainCls) (.seq (lit1 '.')
      (.seq (atLeast2 emailTldCls) .wb)))))

/-- `creditCard: /\b\d{4}[-\s]?\d{4}[-\s]?\d{4}[-\s]?\d{4}\b/g`. -/
def creditCardRE : RE :=
  let sep := RE.opt (.cls (fun c => c = '-' || jsSpace c))
  .seq .wb (.seq (reps 4 dCls) (.seq sep (.seq (reps 4 dCls) (.seq sep
    (.seq (reps 4 dCls) (.seq sep (.seq (reps 4 dCls) .wb)))))))

/-- `address: /\b\d+\s+[A-Za-z\s]+(?:Street|St|Avenue|Ave|Road|Rd|Boulevard|Blvd|Lane|Ln|Drive|Dr)\b/gi`. -/
def addressRE : RE :=
  let suffixes := altList (litStrCI "Street")
    [litStrCI "St", litStrCI "Avenue", litStrCI "Ave", litStrCI "Road",
     litStrCI "Rd", litStrCI "Boulevard", litStrCI "Blvd", litStrCI "Lane",
     litStrCI "Ln", litStrCI "Drive", litStrCI "Dr"]
  .seq .wb (.seq (plus dCls) (.seq (plus (.cls jsSpace))
    (.seq (plus (.cls (fun c => c.isAlpha || jsSpace c))) (.seq suffixes .wb))))

/-- `militaryId: /\b[A-Z]{2}\d{8}\b/g`. -/
def militaryIdRE : RE :=
  .seq .wb (.seq (reps 2 (.cls (fun c => 'A' ≤ c && c ≤ 'Z')))
    (.seq (reps 8 dCls) .wb))

/-- JavaScript `match.slice(-4)`. -/
def lastN (n : Nat) (l : List Char) : List Char := l.drop (l.length - n)

/-- Replacement for an SSN match: `'XXX-XX-' + match.slice(-4)`. -/
def ssnRepl (m : List Char) : List Char := "XXX-XX-".data ++ lastN 4 m

/-- Replacement for a phone match: `'XXX-XXX-' + match.slice(-4)`. -/
def phoneRepl (m : List Char) : List Char := "XXX-XXX-".data ++ lastN 4 m

/-- Replacement for a credit-card match:
`'**** **** **** ' + match.slice(-4)`. -/
def creditCardRepl (m : List Char) : List Char :=
  "**** **** **** ".data ++ lastN 4 m

/-- Replacement for an email match:
`` `${local.charAt(0)}***@${domain}` `` after `match.split('@')` (a match
contains exactly one `@`, since both classes exclude it). -/
def emailRepl (m : List Char) : List Char :=
  let localPart := m.takeWhile (fun c => c ≠ '@')
  let domain := m.drop (localPart.length + 1)
  localPart.take 1 ++ "***@".data ++ domain

/-- Replacement for the remaining pattern types:
`'*'.repeat(match.length)`. -/
def starRepl (m : List Char) : List Char := List.replicate m.length '*'

/-- The six masking passes of `PIIProtector.maskPII`, in the iteration order
of `Object.entries(this.patterns)`: ssn, phone, email, creditCard, address,
militaryId. -/
def piiPasses : List (RE × (List Char → List Char)) :=
  [(ssnRE, ssnRepl), (phoneRE, phoneRepl), (emailRE, emailRepl),
   (creditCardRE, creditCardRepl), (addressRE, starRepl),
   (militaryIdRE, starRepl)]

/-- `PIIProtector.maskPII`: apply the six global replacements in order. -/
def maskPII (s : String) : String :=
  ⟨piiPasses.foldl (fun acc p => replAll p.1 p.2 (acc.length + 1) none acc) s.data⟩

/-! ## Claim C10 -/

/-- Counterexample to C10 (`maskPII` idempotence): on `"a@b.com@c.com"` the
first pass masks the leftmost email match `a@b.com` and leaves
`a***@b.com@c.com`; the global scan resumes after that match, where
`@c.com` alone no longer matches. On a second pass the email pattern matches
`b.com@c.com` (local part `b.com`, preceded by the word boundary after the
inserted `***`), producing `a***@b***@c.com`. Hence
`maskPII (maskPII s) ≠ maskPII s`. -/
theorem maskPII_not_idempotent :
    maskPII "a@b.com@c.com" = "a***@b.com@c.com" ∧
    maskPII "a***@b.com@c.com" = "a***@b***@c.com" ∧
    maskPII (maskPII "a@b.com@c.com") ≠ maskPII "a@b.com@c.com" := by
  refine ⟨rfl, rfl, ?_⟩
  decide

/-- C10 as amended: `maskPII` is not idempotent, and no masked-replacement
shape is a fixed point in general — stability holds only instance by
instance. Concretely: the canonical replacement outputs `'XXX-XX-6789'`
(SSN), `'XXX-XXX-4567'` (phone), `'j***@example.com'` (email),
`'**** **** **** 1234'` (credit card) and a `'*'`-run (address, military id)
are fixed points of `maskPII`, and the six representative single-PII inputs
below are masked idempotently; but an email-replacement-shaped string is not
in general a fixed point: when its domain itself contains maskable PII, a
further pass re-masks inside it, as in
`maskPII "j***@1234-5678-9012-3456.aa" = "j***@**** **** **** 3456.aa"`
(the underlying input `"john@1234-5678-9012-3456.aa"` is nevertheless masked
idempotently, because a single `maskPII` call already runs the credit-card
pass after the email pass). -/
theorem maskPII_replacement_fixed_points :
    maskPII "XXX-XX-6789" = "XXX-XX-6789" ∧
    maskPII "XXX-XXX-4567" = "XXX-XXX-4567" ∧
    maskPII "j***@example.com" = "j***@example.com" ∧
    maskPII "**** **** **** 1234" = "**** **** **** 1234" ∧
    maskPII "**********" = "**********" ∧
    maskPII (maskPII "123-45-6789") = maskPII "123-45-6789" ∧
    maskPII (maskPII "555-123-4567") = maskPII "555-123-4567" ∧
    maskPII (maskPII "john@example.com") = maskPII "john@example.com" ∧
    maskPII (maskPII "1234-5678-9012-3456") = maskPII "1234-5678-9012-3456" ∧
    maskPII (maskPII "123 Main Street") = maskPII "123 Main Street" ∧
    maskPII (maskPII "AB12345678") = maskPII "AB12345678" ∧
    maskPII "j***@1234-5678-9012-3456.aa" = "j***@**** **** **** 3456.aa" ∧
    maskPII "john@1234-5678-9012-3456.aa" = "j***@**** **** **** 3456.aa" ∧
    maskPII (maskPII "john@1234-5678-9012-3456.aa") =
      maskPII "john@1234-5678-9012-3456.aa" :=
  ⟨rfl, rfl, rfl, rfl, rfl, rfl, rfl, rfl, rfl, rfl, rfl, rfl, rfl, rfl⟩

end Vadiy
